import Mathlib

/-!
Verification development for the hireiq-api job-feed subsystem.

The Go sources under internal/service (feed.go, jsearch.go, remotive.go,
adzuna.go) and internal/repository (feed repo) are shallowly embedded here:

* Go strings are embedded as `List Char` (`Str`); the `strings` package
  helpers used by the code (ToLower, Contains, Fields, TrimSpace, EqualFold,
  Join, ReplaceAll, HasPrefix) are reimplemented on `Str`.  `ToLower`/`ToUpper`
  use `Char.toLower`/`Char.toUpper`; the code only compares ASCII keywords, so
  this coincides with Go's Unicode case mapping on every comparison it makes.
* Go `float64` ratio arithmetic inside `calculateMatchScore` is embedded as
  exact `ℚ` arithmetic; `int(x)` on the non-negative values involved is
  `⌊x⌋`.  All ratios are of the form m/n with small integers, where the two
  semantics agree on the statements proved here.
* Go `int` is embedded as `ℤ` (no overflow: all values involved are tiny).
* The database is embedded as explicit state: the `feed_jobs` table is a list
  of rows and `user_feed` a list of links, with the upsert SQL of the
  repository translated to pure state transitions.
* Concurrency: the three provider goroutines only interact through the
  mutex-guarded `totalFetched`/`totalNew` accumulators; since integer
  addition is commutative and associative, the aggregate is interleaving
  independent and is embedded as a sequential sum.
-/

namespace HireIQ

/-- Go strings, embedded as lists of characters. -/
abbrev Str := List Char

/-- Whitespace test used by `strings.Fields` / `strings.TrimSpace`
(ASCII subset of `unicode.IsSpace`; the code never feeds it exotic space). -/
def isSpaceChar (c : Char) : Bool :=
  c == ' ' || c == '\t' || c == '\n' || c == '\r'

/-- Embedding of `strings.ToLower`. -/
def toLower (s : Str) : Str := s.map Char.toLower

/-- Embedding of `strings.ToUpper`. -/
def toUpper (s : Str) : Str := s.map Char.toUpper

/-- Embedding of `strings.TrimSpace`. -/
def trimSpace (s : Str) : Str :=
  ((s.dropWhile isSpaceChar).reverse.dropWhile isSpaceChar).reverse

/-- Embedding of `strings.Contains s sub`: some split of `s` exposes `sub`. -/
def strContains (s sub : Str) : Bool :=
  (List.range (s.length + 1)).any fun i => (s.drop i).take sub.length == sub

/-- Embedding of `strings.HasPrefix s pre`. -/
def leadsWith (s pre : Str) : Bool := s.take pre.length == pre

/-- Embedding of `strings.EqualFold` (ASCII folding, see header note). -/
def equalFold (a b : Str) : Bool := toLower a == toLower b

/-- Embedding of `strings.Fields`: split around runs of whitespace. -/
def fields (s : Str) : List Str :=
  let r := s.foldl
    (fun (acc : List Str × Str) c =>
      if isSpaceChar c then
        if acc.2 == [] then acc else (acc.1 ++ [acc.2], [])
      else (acc.1, acc.2 ++ [c]))
    ([], [])
  if r.2 == [] then r.1 else r.1 ++ [r.2]

/-- Embedding of `strings.Join xs " "`. -/
def joinSpace (xs : List Str) : Str := List.intercalate [' '] xs

/-- Decimal rendering of a natural, for the `fmt.Sprintf` verbs `%d`. -/
def natToStr (n : Nat) : Str := (Nat.repr n).toList

/-- Decimal rendering of an integer (`fmt.Sprintf` `%d`). -/
def intToStr (i : Int) : Str :=
  if i < 0 then '-' :: natToStr i.natAbs else natToStr i.natAbs

/-- Embedding of `strings.ReplaceAll s pat rep` (the code never passes an
empty pattern; we return `s` unchanged in that unused corner). -/
def replaceAll (s pat rep : Str) : Str :=
  if h : pat = [] then s
  else
    match s with
    | [] => []
    | c :: rest =>
      if (c :: rest).take pat.length == pat then
        rep ++ replaceAll ((c :: rest).drop pat.length) pat rep
      else
        c :: replaceAll rest pat rep
termination_by s.length
decreasing_by
  · simp only [List.length_drop, List.length_cons]
    have hp : 0 < pat.length := List.length_pos.mpr h
    omega
  · simp

/-- UTF-8 byte length of an embedded string (Go `len` on a valid string). -/
def utf8Len (s : Str) : Nat := (s.map Char.utf8Size).sum

/-! ## Data model (internal/model/models.go)

`User` keeps the fields the feed subsystem reads (profile signal, location,
work style, salary bounds); the remaining profile fields (email, education,
certifications, …) are never consulted by the code under verification and are
omitted.  `FeedJob` omits the `PostedAt`/`FetchedAt` timestamps and the
per-user join fields: no claim concerns them and they never feed scoring,
counting or row identity. -/

/-- Embedding of `model.Experience` (only `Title` is read by the planners). -/
structure Experience where
  title : Str
  company : Str
  location : Str
  startDate : Str
  endDate : Str
  current : Bool
  description : Str
deriving DecidableEq

/-- Embedding of `model.User` (profile fields read by the feed subsystem). -/
structure User where
  id : Nat
  location : Str
  workStyle : Str
  salaryMin : Int
  salaryMax : Int
  skills : List Str
  targetRoles : List Str
  experience : List Experience
deriving DecidableEq

/-- Embedding of `model.FeedJob` (canonical cached listing; see section note). -/
structure FeedJob where
  id : Nat
  externalID : Str
  source : Str
  title : Str
  company : Str
  location : Str
  salaryMin : Int
  salaryMax : Int
  salaryText : Str
  jobType : Str
  description : Str
  requiredSkills : List Str
  applyURL : Str
  companyLogo : Str
deriving DecidableEq

/-- Embedding of a `user_feed` row (`model.UserFeed`). -/
structure UserFeed where
  userId : Nat
  feedJobId : Nat
  matchScore : Int
  dismissed : Bool
  saved : Bool
  savedJobId : Option Nat
deriving DecidableEq

/-! ## Text sanitization helpers -/

/-- Modelled from the spec: `truncateUTF8` is called by every converter but its
definition is not among the provided sources.  Spec 4.2(e): "truncate to a
fixed character budget (UTF-8-safe — never split a multi-byte character)".
We model it as the longest prefix of whole characters whose total UTF-8 byte
size fits the budget. -/
def truncateUTF8 : Str → Nat → Str
  | [], _ => []
  | c :: rest, budget =>
    if c.utf8Size ≤ budget then c :: truncateUTF8 rest (budget - c.utf8Size)
    else []

/-- Modelled from the spec: `sanitizeFeedJob` (called by `upsertAndLink`) is
not among the provided sources.  Spec 4.2: text is "sanitized to valid
encoding before persistence — invalid byte sequences are replaced or
stripped".  In this embedding strings are lists of Unicode scalar values,
hence always valid encoding, and the sanitizer leaves the job unchanged. -/
def sanitizeFeedJob (j : FeedJob) : FeedJob := j

/-- Block-level tags that make `stripHTML` emit a newline. -/
def blockTags : List Str :=
  ["<br".toList, "<p".toList, "<div".toList, "<h1".toList, "<h2".toList,
   "<h3".toList, "<h4".toList, "<li".toList, "<tr".toList]

/-- Loop of `stripHTML` (claude.go): `s` is the unprocessed suffix and the
three flags mirror `inTag`/`inScript`/`inStyle`.  The Go loop indexes bytes;
all its lookaheads compare ASCII tag text, where byte-wise and
character-wise processing agree. -/
def stripHTMLCore : Str → Bool → Bool → Bool → Str
  | [], _, _, _ => []
  | c :: rest, inTag, inScript, inStyle =>
    let suf := c :: rest
    let low := toLower suf
    let n := suf.length
    let inScript := if n > 7 && leadsWith low ("<script".toList) then true else inScript
    if n > 9 && leadsWith low ("</script>".toList) then
      stripHTMLCore (suf.drop 9) inTag false inStyle
    else
      let inStyle := if n > 6 && leadsWith low ("<style".toList) then true else inStyle
      if n > 8 && leadsWith low ("</style>".toList) then
        stripHTMLCore (suf.drop 8) inTag inScript false
      else if inScript || inStyle then
        stripHTMLCore rest inTag inScript inStyle
      else if c == '<' then
        let nl : Str :=
          if n > 3 && blockTags.any (fun b => leadsWith low b) then ['\n'] else []
        nl ++ stripHTMLCore rest true inScript inStyle
      else if c == '>' then
        stripHTMLCore rest false inScript inStyle
      else if inTag then
        stripHTMLCore rest inTag inScript inStyle
      else
        c :: stripHTMLCore rest inTag inScript inStyle
termination_by s _ _ _ => s.length
decreasing_by all_goals (simp_all; try omega)

/-- Embedding of `stripHTML` (claude.go): tag removal then entity decoding. -/
def stripHTML (html : Str) : Str :=
  let text := stripHTMLCore html false false false
  let text := replaceAll text ("&amp;".toList) ("&".toList)
  let text := replaceAll text ("&lt;".toList) ("<".toList)
  let text := replaceAll text ("&gt;".toList) (">".toList)
  let text := replaceAll text ("&quot;".toList) ("\"".toList)
  let text := replaceAll text ("&#39;".toList) [Char.ofNat 39]
  let text := replaceAll text ("&apos;".toList) [Char.ofNat 39]
  let text := replaceAll text ("&nbsp;".toList) (" ".toList)
  let text := replaceAll text ("&#x27;".toList) [Char.ofNat 39]
  let text := replaceAll text ("&#x2F;".toList) ("/".toList)
  text

/-! ## JSearch provider (jsearch.go) -/

/-- Embedding of `JSearchQuery` (search parameters). -/
structure JSearchQuery where
  query : Str
  location : Str
  remoteOnly : Bool
  numPages : Nat
deriving DecidableEq

/-- Embedding of `JSearchJob` (raw listing from the JSearch API).  The two
salary pointers are `*float64` in Go, holding integral dollar amounts; the
`nil` case is `none`. -/
structure JSearchJob where
  jobID : Str
  jobTitle : Str
  employerName : Str
  employerLogo : Str
  jobCity : Str
  jobState : Str
  jobCountry : Str
  jobIsRemote : Bool
  jobDescription : Str
  jobEmploymentType : Str
  jobApplyLink : Str
  jobMinSalary : Option Int
  jobMaxSalary : Option Int
  jobSalaryCurrency : Str
  jobSalaryPeriod : Str
  jobPostedAt : Str
  jobRequiredSkills : Option (List Str)
deriving DecidableEq

/-- The `add` closure inside `BuildQueriesFromProfile`: state is the pair
(queries so far, `seen` keys so far). -/
def jsAdd (remoteOnly : Bool) (location : Str) (st : List JSearchQuery × List Str)
    (query : Str) (pages : Nat) : List JSearchQuery × List Str :=
  let q := trimSpace query
  let key := toLower q
  if q = [] ∨ st.2.contains key then st
  else (st.1 ++ [⟨q, location, remoteOnly, pages⟩], st.2 ++ [key])

/-- Tail of `BuildQueriesFromProfile`: the hardcoded fallback when no query
was generated, else the safety cap at 8 queries. -/
def jsFallbackOrCap (queries : List JSearchQuery) (location : Str)
    (remoteOnly : Bool) : List JSearchQuery :=
  if queries = [] then [⟨"software engineer".toList, location, remoteOnly, 2⟩]
  else if queries.length > 8 then queries.take 8
  else queries

/-- Embedding of `BuildQueriesFromProfile` (jsearch.go): target roles, then
skill joins, then experience titles, then the hardcoded fallback, capped. -/
def BuildQueriesFromProfile (user : User) : List JSearchQuery :=
  let remoteOnly := equalFold user.workStyle ("remote".toList)
  let location := user.location
  let st0 : List JSearchQuery × List Str := ([], [])
  let st1 := user.targetRoles.foldl
    (fun st role =>
      let role := trimSpace role
      if role ≠ [] then jsAdd remoteOnly location st role 3 else st) st0
  let st2 :=
    if user.skills.length > 0 ∧ st1.1.length < 4 then
      let topSkills := if user.skills.length > 3 then user.skills.take 3 else user.skills
      jsAdd remoteOnly location st1 (joinSpace topSkills ++ (" developer".toList)) 2
    else st1
  let st3 :=
    if user.skills.length > 3 ∧ st2.1.length < 5 then
      let secondSet := user.skills.drop 3
      let secondSet := if secondSet.length > 3 then secondSet.take 3 else secondSet
      jsAdd remoteOnly location st2 (joinSpace secondSet ++ (" engineer".toList)) 2
    else st2
  let st4 := (user.experience.take 2).foldl
    (fun st e =>
      if st.1.length < 6 then
        let title := trimSpace e.title
        if title ≠ [] then jsAdd remoteOnly location st title 2 else st
      else st) st3
  jsFallbackOrCap st4.1 location remoteOnly

/-- Embedding of `convertJSearchJob` (feed.go).  `PostedAt` parsing is
omitted with the field (see the data-model note); the struct's zero `ID`
is 0 pending upsert. -/
def convertJSearchJob (js : JSearchJob) : FeedJob :=
  let location :=
    let l1 : Str := if js.jobIsRemote then "Remote".toList else []
    if js.jobCity ≠ [] then
      let l2 := if l1 ≠ [] then l1 ++ (" / ".toList) else l1
      let l3 := l2 ++ js.jobCity
      if js.jobState ≠ [] then l3 ++ (", ".toList) ++ js.jobState else l3
    else l1
  let salaryMin : Int := match js.jobMinSalary with | some v => v | none => 0
  let salaryMax : Int := match js.jobMaxSalary with | some v => v | none => 0
  let salaryText : Str :=
    if salaryMin > 0 ∨ salaryMax > 0 then
      if js.jobSalaryPeriod = ("YEAR".toList) then
        ("$".toList) ++ intToStr (Int.tdiv salaryMin 1000) ++ ("k - $".toList) ++
          intToStr (Int.tdiv salaryMax 1000) ++ ("k/yr".toList)
      else if js.jobSalaryPeriod = ("HOUR".toList) then
        ("$".toList) ++ intToStr salaryMin ++ (" - $".toList) ++
          intToStr salaryMax ++ ("/hr".toList)
      else []
    else []
  let jobType : Str :=
    if toUpper js.jobEmploymentType = ("PARTTIME".toList) then "part-time".toList
    else if toUpper js.jobEmploymentType = ("CONTRACTOR".toList) then "contract".toList
    else if toUpper js.jobEmploymentType = ("INTERN".toList) then "internship".toList
    else "full-time".toList
  let desc := truncateUTF8 js.jobDescription 2000
  let skills := match js.jobRequiredSkills with | some l => l | none => []
  ⟨0, js.jobID, "jsearch".toList, js.jobTitle, js.employerName, location,
   salaryMin, salaryMax, salaryText, jobType, desc, skills,
   js.jobApplyLink, js.employerLogo⟩

/-! ## Remotive provider (remotive.go) -/

/-- Embedding of `RemotiveQuery`. -/
structure RemotiveQuery where
  search : Str
  category : Str
  limit : Int
deriving DecidableEq

/-- Embedding of `RemotiveJob` (raw listing).  `Tags` keeps Go's nil/empty
distinction as `Option`. -/
structure RemotiveJob where
  id : Int
  title : Str
  companyName : Str
  companyLogo : Str
  category : Str
  tags : Option (List Str)
  jobType : Str
  publicationDate : Str
  candidateRequiredLocation : Str
  salary : Str
  url : Str
  description : Str
deriving DecidableEq

/-- Embedding of `remotiveCategoryMap` as an association list (the Go map is
only ever read by key lookup, so iteration order never matters). -/
def remotiveCategoryMap : List (Str × Str) :=
  [("react", "software-dev"), ("javascript", "software-dev"),
   ("python", "software-dev"), ("go", "software-dev"),
   ("golang", "software-dev"), ("java", "software-dev"),
   ("typescript", "software-dev"), ("rust", "software-dev"),
   ("node", "software-dev"), ("node.js", "software-dev"),
   ("ruby", "software-dev"), ("swift", "software-dev"),
   ("kotlin", "software-dev"), ("c++", "software-dev"),
   ("c#", "software-dev"), (".net", "software-dev"),
   ("php", "software-dev"), ("vue", "software-dev"),
   ("angular", "software-dev"), ("figma", "design"),
   ("ui/ux", "design"), ("design", "design"),
   ("devops", "devops-sysadmin"), ("kubernetes", "devops-sysadmin"),
   ("docker", "devops-sysadmin"), ("terraform", "devops-sysadmin"),
   ("aws", "devops-sysadmin"), ("azure", "devops-sysadmin"),
   ("gcp", "devops-sysadmin"), ("data science", "data"),
   ("machine learning", "data"), ("sql", "data"),
   ("analytics", "data"), ("product", "product"),
   ("qa", "qa"), ("testing", "qa")].map
    (fun p => (p.1.toList, p.2.toList))

/-- Map lookup `remotiveCategoryMap[key]`. -/
def remotiveCategoryLookup (key : Str) : Option Str :=
  (remotiveCategoryMap.find? (fun p => p.1 == key)).map (fun p => p.2)

/-- Embedding of `BuildRemotiveQueries` (remotive.go).  Note the source has
no fallback query: a profile with no signal yields an empty plan. -/
def BuildRemotiveQueries (user : User) : List RemotiveQuery :=
  if equalFold user.workStyle ("onsite".toList) then []
  else
    let st0 : List RemotiveQuery × List Str := ([], [])
    let st1 := user.targetRoles.foldl
      (fun st role =>
        let role := trimSpace role
        let key := toLower role
        if role ≠ [] ∧ ¬ st.2.contains key then
          (st.1 ++ [⟨role, [], 50⟩], st.2 ++ [key])
        else st) st0
    let st2 :=
      if user.skills.length > 0 ∧ st1.1.length < 3 then
        let topSkills := if user.skills.length > 3 then user.skills.take 3 else user.skills
        let q := joinSpace topSkills
        let key := toLower q
        if ¬ st1.2.contains key then (st1.1 ++ [⟨q, [], 50⟩], st1.2 ++ [key])
        else st1
      else st1
    let cats := user.skills.foldl
      (fun (st : List RemotiveQuery × List Str) skill =>
        if st.1.length ≥ 5 then st
        else
          match remotiveCategoryLookup (toLower skill) with
          | some cat =>
            if ¬ st.2.contains cat then (st.1 ++ [⟨[], cat, 50⟩], st.2 ++ [cat])
            else st
          | none => st) (st2.1, ([] : List Str))
    let queries := cats.1
    let final :=
      if user.experience.length > 0 ∧ queries.length < 6 then
        match user.experience with
        | [] => queries
        | e :: _ =>
          let title := trimSpace e.title
          let key := toLower title
          if title ≠ [] ∧ ¬ st2.2.contains key then queries ++ [⟨title, [], 30⟩]
          else queries
      else queries
    if final.length > 6 then final.take 6 else final

/-- Embedding of `convertRemotiveJob` (remotive.go). -/
def convertRemotiveJob (rj : RemotiveJob) : FeedJob :=
  let salaryText := rj.salary
  let jobType : Str :=
    if toLower rj.jobType = ("part_time".toList) then "part-time".toList
    else if toLower rj.jobType = ("contract".toList) then "contract".toList
    else if toLower rj.jobType = ("freelance".toList) then "contract".toList
    else if toLower rj.jobType = ("internship".toList) then "internship".toList
    else "full-time".toList
  let location : Str :=
    let loc := trimSpace rj.candidateRequiredLocation
    if loc ≠ [] ∧ ¬ equalFold loc ("Anywhere".toList) ∧ ¬ equalFold loc ("Worldwide".toList) then
      ("Remote / ".toList) ++ loc
    else "Remote".toList
  let desc := truncateUTF8 (stripHTML rj.description) 2000
  let skills := match rj.tags with | some l => l | none => []
  ⟨0, ("remotive-".toList) ++ intToStr rj.id, "remotive".toList, rj.title,
   rj.companyName, location, 0, 0, salaryText, jobType, desc, skills,
   rj.url, rj.companyLogo⟩

/-! ## Adzuna provider (adzuna.go) -/

/-- Embedding of `AdzunaQuery`. -/
structure AdzunaQuery where
  keywords : Str
  location : Str
  country : Str
  resultsPerPage : Int
  maxDaysOld : Int
  fullTime : Bool
  salaryMin : Int
deriving DecidableEq

/-- Embedding of `AdzunaJob` (raw listing; the nested `company`, `location`
and `category` objects are flattened into their fields).  The salary bounds
are `float64` in Go carrying integral dollar amounts. -/
structure AdzunaJob where
  id : Str
  title : Str
  description : Str
  companyDisplayName : Str
  locationDisplayName : Str
  locationArea : List Str
  salaryMin : Int
  salaryMax : Int
  redirectURL : Str
  created : Str
  categoryLabel : Str
  categoryTag : Str
  contractType : Str
  contractTime : Str
deriving DecidableEq

/-- The `add` closure inside `BuildAdzunaQueries`. -/
def azAdd (user : User) (isRemote : Bool) (location : Str)
    (st : List AdzunaQuery × List Str) (keywords : Str) :
    List AdzunaQuery × List Str :=
  let k := toLower (trimSpace keywords)
  if k = [] ∨ st.2.contains k then st
  else
    let kw := if isRemote then keywords ++ (" remote".toList) else keywords
    let loc : Str := if isRemote then [] else (if location ≠ [] then location else [])
    (st.1 ++ [⟨kw, loc, "us".toList, 50, 30, true, user.salaryMin⟩], st.2 ++ [k])

/-- Embedding of `BuildAdzunaQueries` (adzuna.go). -/
def BuildAdzunaQueries (user : User) : List AdzunaQuery :=
  let isRemote := equalFold user.workStyle ("remote".toList)
  let location := user.location
  let st0 : List AdzunaQuery × List Str := ([], [])
  let st1 := user.targetRoles.foldl
    (fun st role =>
      let role := trimSpace role
      if role ≠ [] then azAdd user isRemote location st role else st) st0
  let st2 :=
    if user.skills.length > 0 ∧ st1.1.length < 4 then
      let topSkills := if user.skills.length > 3 then user.skills.take 3 else user.skills
      azAdd user isRemote location st1 (joinSpace topSkills)
    else st1
  let st3 :=
    if user.experience.length > 0 ∧ st2.1.length < 5 then
      match user.experience with
      | [] => st2
      | e :: _ =>
        let title := trimSpace e.title
        if title ≠ [] then azAdd user isRemote location st2 title else st2
    else st2
  let st4 :=
    if st3.1 = [] then
      azAdd user isRemote location (azAdd user isRemote location st3 ("software engineer".toList)) ("developer".toList)
    else st3
  let queries := st4.1
  if queries.length > 6 then queries.take 6 else queries

/-- Embedding of `convertAdzunaJob` (adzuna.go). -/
def convertAdzunaJob (aj : AdzunaJob) : FeedJob :=
  let salaryMin := aj.salaryMin
  let salaryMax := aj.salaryMax
  let salaryText : Str :=
    if salaryMin > 0 ∨ salaryMax > 0 then
      ("$".toList) ++ intToStr (Int.tdiv salaryMin 1000) ++ ("k - $".toList) ++
        intToStr (Int.tdiv salaryMax 1000) ++ ("k/yr".toList)
    else []
  let jt1 : Str :=
    if toLower aj.contractTime = ("part_time".toList) then "part-time".toList
    else "full-time".toList
  let jobType : Str :=
    if toLower aj.contractType = ("contract".toList) then "contract".toList
    else jt1
  let location : Str :=
    if aj.locationDisplayName = [] ∧ aj.locationArea.length > 0 then
      List.intercalate (", ".toList) aj.locationArea
    else aj.locationDisplayName
  let desc := truncateUTF8 aj.description 2000
  ⟨0, ("adzuna-".toList) ++ aj.id, "adzuna".toList, aj.title,
   aj.companyDisplayName, location, salaryMin, salaryMax, salaryText,
   jobType, desc, [], aj.redirectURL, []⟩

/-! ## Match scorer (feed.go, `calculateMatchScore`)

The Go function accumulates into one `score` variable; the five additions
are independent of each other, so we name each contribution and define the
total as their sum (literally the same value as the sequential `score +=`).
The `float64` ratios become exact rationals built from `Rat.divInt`, and
Go's `int(x * 25)` on the non-negative `x` involved is the floor
`⌊(x.num * 25) / x.den⌋`, computed by `intOfRatMul`. -/

/-- Go `int(q * k)` for the non-negative ratios of the scorer: truncation
toward zero coincides with the floor of the exact product. -/
def intOfRatMul (q : ℚ) (k : Int) : Int := Rat.floor (Rat.divInt (q.num * k) (q.den : Int))

/-- The target-role loop of `calculateMatchScore`: running best match ratio
over the user's target roles.  An exact title hit returns 1.0 at once
(Go `break`); a word-ratio updates the running maximum; a mention in
title+description lifts a best below 0.5 to exactly 0.5. -/
def roleMatchAux (titleL textL : Str) : List Str → ℚ → ℚ
  | [], best => best
  | role :: rest, best =>
    let roleL := toLower (trimSpace role)
    if roleL = [] then roleMatchAux titleL textL rest best
    else if strContains titleL roleL then 1
    else
      let roleWords := fields roleL
      let matched := (roleWords.filter (fun w => strContains titleL w)).length
      let best :=
        if roleWords.length > 0 then
          let r := Rat.divInt (matched : Int) (roleWords.length : Int)
          if best < r then r else best
        else best
      let best :=
        if best < Rat.divInt 1 2 ∧ strContains textL roleL then Rat.divInt 1 2 else best
      roleMatchAux titleL textL rest best

/-- Target-role contribution (up to +25). -/
def roleScore (user : User) (job : FeedJob) : Int :=
  if user.targetRoles.length > 0 then
    let jobTitleLower := toLower job.title
    let jobTextLower := toLower (job.title ++ [' '] ++ job.description)
    intOfRatMul (roleMatchAux jobTitleLower jobTextLower user.targetRoles 0) 25
  else 0

/-- Structured skill-overlap contribution (up to +25).  The Go set
`userSkillSet` is membership in the lower-cased skill list. -/
def skillOverlapScore (user : User) (job : FeedJob) : Int :=
  if user.skills.length > 0 ∧ job.requiredSkills.length > 0 then
    let matchCount := (job.requiredSkills.filter
      (fun sk => (user.skills.map toLower).contains (toLower sk))).length
    intOfRatMul (Rat.divInt (matchCount : Int) (job.requiredSkills.length : Int)) 25
  else 0

/-- Skill keyword-mention contribution (up to +10). -/
def keywordScore (user : User) (job : FeedJob) : Int :=
  if user.skills.length > 0 then
    let jobTextLower := toLower (job.title ++ [' '] ++ job.description)
    let skillMentions := (user.skills.filter
      (fun sk => strContains jobTextLower (toLower sk))).length
    if skillMentions > 0 then
      if (skillMentions : Int) * 3 > 10 then 10 else (skillMentions : Int) * 3
    else 0
  else 0

/-- Location contribution (+5). -/
def locationScore (user : User) (job : FeedJob) : Int :=
  if user.workStyle ≠ [] ∧ job.location ≠ [] then
    if equalFold user.workStyle ("remote".toList) ∧
        strContains (toLower job.location) ("remote".toList) then 5
    else if user.location ≠ [] ∧
        strContains (toLower job.location) (toLower user.location) then 5
    else 0
  else 0

/-- Salary contribution (+5). -/
def salaryScore (user : User) (job : FeedJob) : Int :=
  if user.salaryMin > 0 ∧ job.salaryMax > 0 then
    if job.salaryMax ≥ user.salaryMin then 5 else 0
  else 0

/-- Embedding of `calculateMatchScore` (feed.go): base 30 plus the five
contributions, capped at 100. -/
def calculateMatchScore (user : User) (job : FeedJob) : Int :=
  let score : Int := 30 + roleScore user job + skillOverlapScore user job +
    keywordScore user job + locationScore user job + salaryScore user job
  if score > 100 then 100 else score

/-! ## Feed store (internal/repository, part of the provided sources)

The `feed_jobs` table is a list of `FeedJob` rows (row ids are assigned on
insert and unique), the `user_feed` table a list of `UserFeed` rows. -/

/-- Fresh row id for an insert: one more than the largest id in the store. -/
def freshId (store : List FeedJob) : Nat :=
  store.foldl (fun m j => max m j.id) 0 + 1

/-- Embedding of `FeedRepo.UpsertFeedJob`: `INSERT … ON CONFLICT
(external_id, source) DO UPDATE SET title = EXCLUDED.title, fetched_at =
now() RETURNING …`.  Returns the new store, the stored row, and whether a
brand-new row was inserted (the SQL itself does not report this flag to the
caller; it is part of the state semantics and lets us state claims about
newness). -/
def UpsertFeedJob (store : List FeedJob) (job : FeedJob) :
    List FeedJob × FeedJob × Bool :=
  match store.find? (fun r => r.externalID == job.externalID && r.source == job.source) with
  | some r =>
    let updated : FeedJob :=
      ⟨r.id, r.externalID, r.source, job.title, r.company, r.location,
       r.salaryMin, r.salaryMax, r.salaryText, r.jobType, r.description,
       r.requiredSkills, r.applyURL, r.companyLogo⟩
    (store.map (fun x =>
       if x.externalID == job.externalID && x.source == job.source then updated else x),
     updated, false)
  | none =>
    let row : FeedJob :=
      ⟨freshId store, job.externalID, job.source, job.title, job.company,
       job.location, job.salaryMin, job.salaryMax, job.salaryText, job.jobType,
       job.description, job.requiredSkills, job.applyURL, job.companyLogo⟩
    (store ++ [row], row, true)

/-- Embedding of `FeedRepo.LinkJobToUser`: `INSERT … ON CONFLICT (user_id,
feed_job_id) DO UPDATE SET match_score = EXCLUDED.match_score`; new links
start with `dismissed = false`, `saved = false`, no saved job. -/
def LinkJobToUser (links : List UserFeed) (userId feedJobId : Nat) (score : Int) :
    List UserFeed :=
  if links.any (fun l => l.userId == userId && l.feedJobId == feedJobId) then
    links.map (fun l =>
      if l.userId == userId && l.feedJobId == feedJobId then
        ⟨l.userId, l.feedJobId, score, l.dismissed, l.saved, l.savedJobId⟩
      else l)
  else links ++ [⟨userId, feedJobId, score, false, false, none⟩]

/-- Modelled from the spec: `FeedRepo.GetUserFeedForRescore` is called by
`RescoreUserFeed` but is not among the provided sources.  Spec 4.5: "loads
all of the user's existing non-dismissed UserFeedLinks with their joined
FeedJob data". -/
def GetUserFeedForRescore (store : List FeedJob) (links : List UserFeed)
    (userId : Nat) : List FeedJob :=
  (links.filter (fun l => l.userId == userId && !l.dismissed)).filterMap
    (fun l => store.find? (fun j => j.id == l.feedJobId))

/-- Modelled from the spec: `FeedRepo.BatchUpdateMatchScores` is called by
`RescoreUserFeed` but is not among the provided sources.  Spec 4.5:
"performs one batch update of scores keyed by feedJobId" — each of the
user's links whose feedJobId is in the score map gets that score; nothing
else changes. -/
def BatchUpdateMatchScores (links : List UserFeed) (userId : Nat)
    (scores : List (Nat × Int)) : List UserFeed :=
  links.map (fun l =>
    if l.userId == userId then
      match scores.find? (fun p => p.1 == l.feedJobId) with
      | some p => ⟨l.userId, l.feedJobId, p.2, l.dismissed, l.saved, l.savedJobId⟩
      | none => l
    else l)

/-! ## Refresh orchestrator (feed.go)

The environment packages the collaborator results for one refresh: the
profile lookup, the most recent refresh-log timestamp (`none` covers both
"no rows" and a lookup error, exactly the cases where the Go code
continues), which providers are wired (`s.jsearch != nil`, `s.remotive !=
nil`, `s.adzuna != nil && s.adzuna.Enabled()`), each adapter's per-query
outcome, and whether the two persistence calls succeed for a given job.
Each provider goroutine only communicates through the mutex-guarded
counters, so the concurrent fan-out is embedded as sequential runs whose
counts are summed; the emitted `calls` list records every adapter
invocation. -/

/-- One provider-adapter invocation, as recorded in the refresh trace. -/
inductive ProviderCall where
  | jsearch (q : JSearchQuery)
  | remotive (q : RemotiveQuery)
  | adzuna (q : AdzunaQuery)
deriving DecidableEq

/-- Collaborator results for one refresh run. -/
structure RefreshEnv where
  findUser : Option User
  lastRefresh : Option Int
  now : Int
  jsearchConfigured : Bool
  remotiveConfigured : Bool
  adzunaConfigured : Bool
  jsearchSearch : JSearchQuery → Except Unit (List JSearchJob)
  remotiveSearch : RemotiveQuery → Except Unit (List RemotiveJob)
  adzunaSearch : AdzunaQuery → Except Unit (List AdzunaJob)
  upsertOk : FeedJob → Bool
  linkOk : FeedJob → Bool

/-- Embedding of `FeedService.upsertAndLink`: sanitize, upsert (`false` on a
failed upsert), score against the profile, link (`false` on a failed link),
else `true`.  The returned flag is what the per-source loops count as
"new". -/
def upsertAndLink (env : RefreshEnv) (user : User) (store : List FeedJob)
    (links : List UserFeed) (feedJob : FeedJob) :
    List FeedJob × List UserFeed × Bool :=
  let j := sanitizeFeedJob feedJob
  if env.upsertOk j = false then (store, links, false)
  else
    let r := UpsertFeedJob store j
    let stored := r.2.1
    let score := calculateMatchScore user stored
    if env.linkOk j = false then (r.1, links, false)
    else (r.1, LinkJobToUser links user.id stored.id score, true)

/-- Accumulator of one provider's run: counts, adapter-call trace, state. -/
structure SourceAcc where
  fetched : Nat
  newCount : Nat
  calls : List ProviderCall
  store : List FeedJob
  links : List UserFeed
deriving DecidableEq

/-- Body of the inner result loop shared by the three per-source refresh
helpers: upsert-and-link one converted job and count a `true` return. -/
def itemStep (env : RefreshEnv) (user : User) (a : SourceAcc) (fj : FeedJob) :
    SourceAcc :=
  let u := upsertAndLink env user a.store a.links fj
  ⟨a.fetched, a.newCount + (if u.2.2 then 1 else 0), a.calls, u.1, u.2.1⟩

/-- Body of the JSearch query loop: one adapter call per planned query; a
failed query is logged and skipped, a successful one adds its results to
`fetched` and runs the result loop. -/
def jsQueryStep (env : RefreshEnv) (user : User) (acc : SourceAcc)
    (q : JSearchQuery) : SourceAcc :=
  match env.jsearchSearch q with
  | Except.error _ =>
    ⟨acc.fetched, acc.newCount, acc.calls ++ [ProviderCall.jsearch q],
     acc.store, acc.links⟩
  | Except.ok results =>
    (results.map convertJSearchJob).foldl (itemStep env user)
      ⟨acc.fetched + results.length, acc.newCount,
       acc.calls ++ [ProviderCall.jsearch q], acc.store, acc.links⟩

/-- Embedding of `FeedService.refreshFromJSearch`. -/
def refreshFromJSearch (env : RefreshEnv) (user : User) (store : List FeedJob)
    (links : List UserFeed) : SourceAcc :=
  (BuildQueriesFromProfile user).foldl (jsQueryStep env user) ⟨0, 0, [], store, links⟩

/-- Body of the Remotive query loop. -/
def rmQueryStep (env : RefreshEnv) (user : User) (acc : SourceAcc)
    (q : RemotiveQuery) : SourceAcc :=
  match env.remotiveSearch q with
  | Except.error _ =>
    ⟨acc.fetched, acc.newCount, acc.calls ++ [ProviderCall.remotive q],
     acc.store, acc.links⟩
  | Except.ok results =>
    (results.map convertRemotiveJob).foldl (itemStep env user)
      ⟨acc.fetched + results.length, acc.newCount,
       acc.calls ++ [ProviderCall.remotive q], acc.store, acc.links⟩

/-- Embedding of `FeedService.refreshFromRemotive` (the explicit empty-plan
skip of the source included). -/
def refreshFromRemotive (env : RefreshEnv) (user : User) (store : List FeedJob)
    (links : List UserFeed) : SourceAcc :=
  let queries := BuildRemotiveQueries user
  if queries.length = 0 then ⟨0, 0, [], store, links⟩
  else queries.foldl (rmQueryStep env user) ⟨0, 0, [], store, links⟩

/-- Body of the Adzuna query loop. -/
def azQueryStep (env : RefreshEnv) (user : User) (acc : SourceAcc)
    (q : AdzunaQuery) : SourceAcc :=
  match env.adzunaSearch q with
  | Except.error _ =>
    ⟨acc.fetched, acc.newCount, acc.calls ++ [ProviderCall.adzuna q],
     acc.store, acc.links⟩
  | Except.ok results =>
    (results.map convertAdzunaJob).foldl (itemStep env user)
      ⟨acc.fetched + results.length, acc.newCount,
       acc.calls ++ [ProviderCall.adzuna q], acc.store, acc.links⟩

/-- Embedding of `FeedService.refreshFromAdzuna`. -/
def refreshFromAdzuna (env : RefreshEnv) (user : User) (store : List FeedJob)
    (links : List UserFeed) : SourceAcc :=
  (BuildAdzunaQueries user).foldl (azQueryStep env user) ⟨0, 0, [], store, links⟩

/-- Result of one `RefreshUserFeed` run.  `err = true` is the single
error path of the source (profile not found); every other outcome returns a
nil error. -/
structure RefreshOutcome where
  fetched : Nat
  newCount : Nat
  err : Bool
  calls : List ProviderCall
  store : List FeedJob
  links : List UserFeed
deriving DecidableEq

/-- Throttle test of `RefreshUserFeed`: `lastRefresh != nil &&
time.Since(*lastRefresh) < 2*time.Hour`, with timestamps in seconds. -/
def withinThrottle (env : RefreshEnv) : Bool :=
  match env.lastRefresh with
  | some t => decide (env.now - t < 7200)
  | none => false

/-- Embedding of `FeedService.RefreshUserFeed` (feed.go): profile lookup,
throttle (2 hours, skipped on `force`), fan-out over the configured
providers, aggregation of counts.  The final `LogRefresh` write only feeds
`GetLastRefresh` of later runs and is not part of the outcome. -/
def RefreshUserFeed (env : RefreshEnv) (store : List FeedJob)
    (links : List UserFeed) (force : Bool) : RefreshOutcome :=
  match env.findUser with
  | none => ⟨0, 0, true, [], store, links⟩
  | some user =>
    if !force && withinThrottle env then
      ⟨0, 0, false, [], store, links⟩
    else
      let s1 := if env.jsearchConfigured then refreshFromJSearch env user store links
                else ⟨0, 0, [], store, links⟩
      let s2 := if env.remotiveConfigured then refreshFromRemotive env user s1.store s1.links
                else ⟨0, 0, [], s1.store, s1.links⟩
      let s3 := if env.adzunaConfigured then refreshFromAdzuna env user s2.store s2.links
                else ⟨0, 0, [], s2.store, s2.links⟩
      ⟨s1.fetched + s2.fetched + s3.fetched,
       s1.newCount + s2.newCount + s3.newCount,
       false,
       s1.calls ++ s2.calls ++ s3.calls,
       s3.store, s3.links⟩

/-- Embedding of `FeedService.RescoreUserFeed` (feed.go): profile lookup,
load the rescore rows, recompute each score with `calculateMatchScore`, one
batch update.  Returns (links, rescored count, err, adapter calls); the
adapter-call trace is empty because the source never touches a provider
client. -/
def RescoreUserFeed (findUser : Option User) (store : List FeedJob)
    (links : List UserFeed) (userId : Nat) :
    List UserFeed × Nat × Bool × List ProviderCall :=
  match findUser with
  | none => (links, 0, true, [])
  | some user =>
    let jobs := GetUserFeedForRescore store links userId
    if jobs.length = 0 then (links, 0, false, [])
    else
      let scores := jobs.map (fun j => (j.id, calculateMatchScore user j))
      (BatchUpdateMatchScores links userId scores, scores.length, false, [])

/-! ## Statement helpers and concrete fixtures -/

/-- The same profile with the skill list replaced (used to state monotonicity
of the scorer in the skill list). -/
def withSkills (u : User) (l : List Str) : User :=
  ⟨u.id, u.location, u.workStyle, u.salaryMin, u.salaryMax, l,
   u.targetRoles, u.experience⟩

/-- The same environment with the JSearch client unconfigured (used to state
that a fully failing provider contributes nothing to the counts). -/
def disableJSearch (env : RefreshEnv) : RefreshEnv :=
  ⟨env.findUser, env.lastRefresh, env.now, false, env.remotiveConfigured,
   env.adzunaConfigured, env.jsearchSearch, env.remotiveSearch,
   env.adzunaSearch, env.upsertOk, env.linkOk⟩

/-- Everything of a `user_feed` row except the match score. -/
def linkFrame (l : UserFeed) : Nat × Nat × Bool × Bool × Option Nat :=
  (l.userId, l.feedJobId, l.dismissed, l.saved, l.savedJobId)

/-- The plan `BuildQueriesFromProfile` produces for a no-signal profile:
exactly the hardcoded fallback query. -/
def jsearchFallbackPlan (u : User) : List JSearchQuery :=
  [⟨"software engineer".toList, u.location, equalFold u.workStyle ("remote".toList), 2⟩]

/-- The plan `BuildAdzunaQueries` produces for a no-signal profile: the two
fallback keyword queries. -/
def adzunaFallbackPlan (u : User) : List AdzunaQuery :=
  let isRemote := equalFold u.workStyle ("remote".toList)
  let loc : Str := if isRemote then [] else (if u.location ≠ [] then u.location else [])
  [⟨(if isRemote then "software engineer remote".toList else "software engineer".toList),
    loc, "us".toList, 50, 30, true, u.salaryMin⟩,
   ⟨(if isRemote then "developer remote".toList else "developer".toList),
    loc, "us".toList, 50, 30, true, u.salaryMin⟩]

/-- Fixture: a profile with one target role and no other signal. -/
def sampleUser : User := ⟨1, [], [], 0, 0, [], ["engineer".toList], []⟩

/-- Fixture: one raw Remotive listing. -/
def sampleRemotiveJob : RemotiveJob :=
  ⟨5, "T".toList, "Co".toList, [], [], none, [], [], [], [], [], "hi".toList⟩

/-- Fixture: refresh environment whose JSearch adapter fails every query
while Remotive succeeds with one listing (Adzuna unconfigured). -/
def outageEnv : RefreshEnv :=
  ⟨some sampleUser, none, 0, true, true, false,
   fun _ => Except.error (), fun _ => Except.ok [sampleRemotiveJob],
   fun _ => Except.ok [], fun _ => true, fun _ => true⟩

/-- Fixture: refresh environment whose last refresh-log entry lies 100
seconds in the past, well inside the 2-hour throttle window. -/
def throttledEnv : RefreshEnv :=
  ⟨some sampleUser, some 0, 100, true, false, false,
   fun _ => Except.error (), fun _ => Except.error (),
   fun _ => Except.error (), fun _ => true, fun _ => true⟩

/-- Fixture: environment whose persistence calls all succeed. -/
def allOkEnv : RefreshEnv :=
  ⟨some sampleUser, none, 0, true, true, true,
   fun _ => Except.ok [], fun _ => Except.ok [], fun _ => Except.ok [],
   fun _ => true, fun _ => true⟩

/-- Fixture: a cached feed-job row already present for (jsearch, x1). -/
def existingRow : FeedJob :=
  ⟨7, "x1".toList, "jsearch".toList, "Old".toList, [], [], 0, 0, [], [], [], [], [], []⟩

/-- Fixture: a normalized job carrying the same (jsearch, x1) identity. -/
def incomingJob : FeedJob :=
  ⟨0, "x1".toList, "jsearch".toList, "New".toList, [], [], 0, 0, [], [], [], [], [], []⟩

/-- Fixture: the spec scenario job (C5). -/
def backendJob : FeedJob :=
  ⟨0, "x1".toList, "jsearch".toList, "Senior Backend Engineer".toList,
   "Acme".toList, [], 0, 150000, [], "full-time".toList, [],
   ["Go".toList, "Kubernetes".toList], [], []⟩

/-- Fixture: the spec scenario profile (C5). -/
def backendProfile : User :=
  ⟨1, [], [], 120000, 0, ["Go".toList, "Postgres".toList],
   ["Backend Engineer".toList], []⟩

/-- Fixture: the spec scenario's empty profile (C5). -/
def emptyProfile : User := ⟨1, [], [], 0, 0, [], [], []⟩

/-- Fixture: a profile with no search signal at all and a neutral work
style (C6). -/
def noSignalUser : User := ⟨2, [], [], 0, 0, [], [], []⟩

/-- Fixture: a raw JSearch listing whose native id happens to spell an
Adzuna-namespaced id (C7). -/
def jsRawColliding : JSearchJob :=
  ⟨"adzuna-42".toList, "T".toList, [], [], [], [], [], false, [], [], [],
   none, none, [], [], [], none⟩

/-- Fixture: a raw Adzuna listing with native id 42 (C7). -/
def ajRawColliding : AdzunaJob :=
  ⟨"42".toList, "T".toList, [], [], [], [], 0, 0, [], [], [], [], [], []⟩

/-! ## Theorems -/

/-- C5: the spec scenario profile (one matching target role, one matching
skill, compatible salary floor) scores strictly higher against the Senior
Backend Engineer job than the empty profile does (the concrete values are
72 versus the bare base 30). -/
theorem backend_profile_scores_higher :
  calculateMatchScore backendProfile backendJob >
    calculateMatchScore emptyProfile backendJob := by decide

/-- C1: the code evaluated at the failing input.  With a row for
(jsearch, x1) already cached, a re-fetched listing with the same identity
is still counted as "new" by `upsertAndLink` (it returns `true` whenever
upsert and link succeed), even though the upsert merely refreshed the
existing row rather than inserting a brand-new one — contradicting the
claim and the schema's own comment on `jobs_new` ("how many were new, not
dupes"). -/
theorem new_count_on_refreshed_row :
  (upsertAndLink allOkEnv sampleUser [existingRow] [] incomingJob).2.2 = true ∧
  (UpsertFeedJob [existingRow] (sanitizeFeedJob incomingJob)).2.2 = false := by decide

/-- Helper characterization of the count: a normalized job is counted
toward "new" exactly when its upsert and its link both succeed; whether
the upsert inserted a brand-new row plays no part in the count. -/
theorem upsertAndLink_counts_iff_persisted (env : RefreshEnv) (user : User)
    (store : List FeedJob) (links : List UserFeed) (job : FeedJob) :
    (upsertAndLink env user store links job).2.2 = true ↔
    (env.upsertOk (sanitizeFeedJob job) = true ∧
     env.linkOk (sanitizeFeedJob job) = true) := by
  unfold upsertAndLink
  rcases h1 : env.upsertOk (sanitizeFeedJob job) <;>
    rcases h2 : env.linkOk (sanitizeFeedJob job) <;>
      simp [h1, h2]

/-- Helper: upserting a job whose source differs from every cached row's
source always inserts a brand-new row. -/
theorem UpsertFeedJob_insert_of_source_ne (store : List FeedJob) (job : FeedJob)
    (h : ∀ r ∈ store, r.source ≠ job.source) :
    (UpsertFeedJob store job).2.2 = true ∧
    (UpsertFeedJob store job).1.length = store.length + 1 := by
  unfold UpsertFeedJob
  have hfind : store.find?
      (fun r => r.externalID == job.externalID && r.source == job.source) = none := by
    apply List.find?_eq_none.mpr
    intro r hr
    simp [h r hr]
  rw [hfind]
  simp

/-- C7 counterexample: the JSearch normalizer keeps the provider's native id
as the externalId with no provider prefix, so a JSearch listing whose
native id spells "adzuna-42" produces exactly the same externalId as an
Adzuna listing with native id "42": externalIds of different providers can
collide, refuting the claim that every normalizer emits a
provider-namespaced externalId. -/
theorem external_id_collision :
  (convertJSearchJob jsRawColliding).externalID =
    (convertAdzunaJob ajRawColliding).externalID ∧
  leadsWith (convertJSearchJob jsRawColliding).externalID ("jsearch".toList) = false := by
  decide

/-- C7 amended: Remotive and Adzuna prefix their externalIds with the
provider name while JSearch keeps the raw native id, but row identity is
the (source, externalId) pair and the three converters stamp three distinct
sources, so upserting one listing from each of two different providers
always yields two distinct FeedJob rows even when the externalIds
collide. -/
theorem cross_provider_rows_distinct (js : JSearchJob) (rj : RemotiveJob) (aj : AdzunaJob) :
    ((UpsertFeedJob (UpsertFeedJob [] (convertJSearchJob js)).1 (convertAdzunaJob aj)).2.2 = true ∧
     (UpsertFeedJob (UpsertFeedJob [] (convertJSearchJob js)).1 (convertAdzunaJob aj)).1.length = 2) ∧
    ((UpsertFeedJob (UpsertFeedJob [] (convertJSearchJob js)).1 (convertRemotiveJob rj)).2.2 = true ∧
     (UpsertFeedJob (UpsertFeedJob [] (convertJSearchJob js)).1 (convertRemotiveJob rj)).1.length = 2) ∧
    ((UpsertFeedJob (UpsertFeedJob [] (convertRemotiveJob rj)).1 (convertAdzunaJob aj)).2.2 = true ∧
     (UpsertFeedJob (UpsertFeedJob [] (convertRemotiveJob rj)).1 (convertAdzunaJob aj)).1.length = 2) := by
  have hj : ∀ j : FeedJob, (UpsertFeedJob [] j).1 = [⟨freshId [], j.externalID, j.source,
      j.title, j.company, j.location, j.salaryMin, j.salaryMax, j.salaryText,
      j.jobType, j.description, j.requiredSkills, j.applyURL, j.companyLogo⟩] := by
    intro j; rfl
  have key : ∀ j1 j2 : FeedJob, j1.source ≠ j2.source →
      (UpsertFeedJob (UpsertFeedJob [] j1).1 j2).2.2 = true ∧
      (UpsertFeedJob (UpsertFeedJob [] j1).1 j2).1.length = 2 := by
    intro j1 j2 hs
    rw [hj]
    have h := UpsertFeedJob_insert_of_source_ne
      [⟨freshId [], j1.externalID, j1.source, j1.title, j1.company, j1.location,
        j1.salaryMin, j1.salaryMax, j1.salaryText, j1.jobType, j1.description,
        j1.requiredSkills, j1.applyURL, j1.companyLogo⟩] j2 ?_
    · exact ⟨h.1, by simpa using h.2⟩
    · intro r hr
      simp only [List.mem_singleton] at hr
      subst hr
      exact hs
  have s1 : (convertJSearchJob js).source = "jsearch".toList := rfl
  have s2 : (convertRemotiveJob rj).source = "remotive".toList := rfl
  have s3 : (convertAdzunaJob aj).source = "adzuna".toList := rfl
  exact ⟨key _ _ (by rw [s1, s3]; decide), key _ _ (by rw [s1, s2]; decide),
         key _ _ (by rw [s2, s3]; decide)⟩

/-- Helper: `Rat.floor` is the `Int.floor` of Mathlib's floor ring. -/
theorem ratFloor_eq_intFloor (r : ℚ) : Rat.floor r = ⌊r⌋ := by
  rw [Rat.floor_def', Rat.floor_def]

/-- Helper: `intOfRatMul` really is the floor of the exact product. -/
theorem intOfRatMul_eq (q : ℚ) (k : ℤ) : intOfRatMul q k = ⌊q * (k : ℚ)⌋ := by
  unfold intOfRatMul
  rw [ratFloor_eq_intFloor]
  congr 1
  rw [Rat.divInt_eq_div]
  push_cast
  conv_rhs => rw [← Rat.num_div_den q]
  rw [div_mul_eq_mul_div]

/-- Helper: Go's `int(q * k)` is non-negative for non-negative inputs. -/
theorem intOfRatMul_nonneg (q : ℚ) (k : ℤ) (hq : 0 ≤ q) (hk : (0 : ℤ) ≤ k) :
    0 ≤ intOfRatMul q k := by
  rw [intOfRatMul_eq]
  exact Int.floor_nonneg.mpr (mul_nonneg hq (by exact_mod_cast hk))

/-- Helper: Go's `int(q * 25)` is monotone in the ratio. -/
theorem intOfRatMul_mono (q r : ℚ) (h : q ≤ r) :
    intOfRatMul q 25 ≤ intOfRatMul r 25 := by
  rw [intOfRatMul_eq, intOfRatMul_eq]
  exact Int.floor_mono (mul_le_mul_of_nonneg_right h (by norm_num))

/-- Helper: a ratio of natural counts is a non-negative rational. -/
theorem divInt_natCast_nonneg (m n : Nat) :
    (0 : ℚ) ≤ Rat.divInt (m : Int) (n : Int) :=
  Rat.divInt_nonneg (Int.natCast_nonneg m) (Int.natCast_nonneg n)

/-- Helper: the running best of the role loop stays non-negative. -/
theorem roleMatchAux_nonneg (l : List Str) (t x : Str) (b : ℚ) (hb : 0 ≤ b) :
    0 ≤ roleMatchAux t x l b := by
  induction l generalizing b with
  | nil => simpa [roleMatchAux] using hb
  | cons role rest ih =>
    simp only [roleMatchAux]
    split_ifs <;>
      first
        | exact ih _ hb
        | exact ih _ (divInt_natCast_nonneg _ _)
        | exact ih _ (Rat.divInt_nonneg (by norm_num) (by norm_num))
        | exact zero_le_one

/-- Helper: the role contribution is non-negative. -/
theorem roleScore_nonneg (u : User) (j : FeedJob) : 0 ≤ roleScore u j := by
  unfold roleScore
  split_ifs
  · exact intOfRatMul_nonneg _ _ (roleMatchAux_nonneg _ _ _ 0 le_rfl) (by norm_num)
  · exact le_rfl

/-- Helper: the structured skill-overlap contribution is non-negative. -/
theorem skillOverlapScore_nonneg (u : User) (j : FeedJob) :
    0 ≤ skillOverlapScore u j := by
  unfold skillOverlapScore
  split_ifs
  · exact intOfRatMul_nonneg _ _ (divInt_natCast_nonneg _ _) (by norm_num)
  · exact le_rfl

/-- Helper: the keyword contribution is non-negative. -/
theorem keywordScore_nonneg (u : User) (j : FeedJob) : 0 ≤ keywordScore u j := by
  simp only [keywordScore]
  split_ifs <;> omega

/-- Helper: the location contribution is non-negative. -/
theorem locationScore_nonneg (u : User) (j : FeedJob) : 0 ≤ locationScore u j := by
  unfold locationScore
  split_ifs <;> norm_num

/-- Helper: the salary contribution is non-negative. -/
theorem salaryScore_nonneg (u : User) (j : FeedJob) : 0 ≤ salaryScore u j := by
  unfold salaryScore
  split_ifs <;> norm_num

/-- C4: for every profile and every feed job — including profiles with empty
skill and target-role lists — `calculateMatchScore` stays within [0, 100]:
the cap bounds it above by 100, and since every weighted contribution is
non-negative the fixed base 30 is a floor (hence the score is never
negative). -/
theorem calculateMatchScore_in_range (user : User) (job : FeedJob) :
    30 ≤ calculateMatchScore user job ∧ calculateMatchScore user job ≤ 100 := by
  have h1 := roleScore_nonneg user job
  have h2 := skillOverlapScore_nonneg user job
  have h3 := keywordScore_nonneg user job
  have h4 := locationScore_nonneg user job
  have h5 := salaryScore_nonneg user job
  simp only [calculateMatchScore]
  split_ifs <;> omega

/-- C10 helper: appending a skill can only grow the structured overlap. -/
theorem skillOverlapScore_mono (u : User) (j : FeedJob) (s : Str) :
    skillOverlapScore u j ≤ skillOverlapScore (withSkills u (u.skills ++ [s])) j := by
  by_cases hg : u.skills.length > 0 ∧ j.requiredSkills.length > 0
  · have hg2 : (withSkills u (u.skills ++ [s])).skills.length > 0 ∧
        j.requiredSkills.length > 0 := by
      refine ⟨?_, hg.2⟩
      show (u.skills ++ [s]).length > 0
      simp
    have e1 : skillOverlapScore u j = intOfRatMul (Rat.divInt
        (((j.requiredSkills.filter
          (fun sk => (u.skills.map toLower).contains (toLower sk))).length : Nat) : Int)
        ((j.requiredSkills.length : Nat) : Int)) 25 := by
      simp only [skillOverlapScore]
      rw [if_pos hg]
    have e2 : skillOverlapScore (withSkills u (u.skills ++ [s])) j = intOfRatMul (Rat.divInt
        (((j.requiredSkills.filter
          (fun sk => ((u.skills ++ [s]).map toLower).contains (toLower sk))).length : Nat) : Int)
        ((j.requiredSkills.length : Nat) : Int)) 25 := by
      simp only [skillOverlapScore]
      rw [if_pos hg2]
      rfl
    rw [e1, e2]
    apply intOfRatMul_mono
    rw [Rat.divInt_le_divInt (by exact_mod_cast hg.2) (by exact_mod_cast hg.2)]
    apply mul_le_mul_of_nonneg_right _ (Int.natCast_nonneg _)
    have hcount : (j.requiredSkills.filter
          (fun sk => (u.skills.map toLower).contains (toLower sk))).length ≤
        (j.requiredSkills.filter
          (fun sk => ((u.skills ++ [s]).map toLower).contains (toLower sk))).length := by
      rw [← List.countP_eq_length_filter, ← List.countP_eq_length_filter]
      apply List.countP_mono_left
      intro a _ hc
      simp only [List.contains_eq_any_beq] at hc
      simp only [List.map_append, List.contains_eq_any_beq, List.any_append]
      simp [hc]
    exact_mod_cast hcount
  · have e0 : skillOverlapScore u j = 0 := by
      simp only [skillOverlapScore]
      rw [if_neg hg]
    rw [e0]
    exact skillOverlapScore_nonneg _ _

/-- C10 helper: appending a skill can only grow the keyword bonus. -/
theorem keywordScore_mono (u : User) (j : FeedJob) (s : Str) :
    keywordScore u j ≤ keywordScore (withSkills u (u.skills ++ [s])) j := by
  have hw : (withSkills u (u.skills ++ [s])).skills = u.skills ++ [s] := rfl
  have hlen : (u.skills ++ [s]).length = u.skills.length + 1 := by simp
  have hcount : (u.skills.filter
        (fun sk => strContains (toLower (j.title ++ [' '] ++ j.description)) (toLower sk))).length ≤
      ((u.skills ++ [s]).filter
        (fun sk => strContains (toLower (j.title ++ [' '] ++ j.description)) (toLower sk))).length := by
    rw [List.filter_append]
    simp
  simp only [keywordScore, hw]
  split_ifs <;> omega

/-- C10: enlarging the skill list (every other profile field and the job
held fixed) never decreases the match score: the two skill-driven
contributions are monotone in the skill list, the other three ignore it,
and the final cap is monotone. -/
theorem calculateMatchScore_mono_skills (u : User) (j : FeedJob) (s : Str) :
    calculateMatchScore u j ≤ calculateMatchScore (withSkills u (u.skills ++ [s])) j := by
  have hrole : roleScore (withSkills u (u.skills ++ [s])) j = roleScore u j := rfl
  have hloc : locationScore (withSkills u (u.skills ++ [s])) j = locationScore u j := rfl
  have hsal : salaryScore (withSkills u (u.skills ++ [s])) j = salaryScore u j := rfl
  have hov := skillOverlapScore_mono u j s
  have hkw := keywordScore_mono u j s
  simp only [calculateMatchScore]
  rw [hrole, hloc, hsal]
  split_ifs <;> omega

/-- C8 helper: `truncateUTF8` keeps at most the byte budget. -/
theorem truncateUTF8_utf8Len_le (s : Str) (n : Nat) :
    utf8Len (truncateUTF8 s n) ≤ n := by
  induction s generalizing n with
  | nil => simp [truncateUTF8, utf8Len]
  | cons c rest ih =>
    simp only [truncateUTF8]
    split_ifs with h
    · have := ih (n - c.utf8Size)
      simp only [utf8Len, List.map_cons, List.sum_cons] at *
      omega
    · simp [utf8Len]

/-- C8 helper: `truncateUTF8` cuts between characters — its output is a
characterwise prefix of its input. -/
theorem truncateUTF8_is_take (s : Str) (n : Nat) :
    ∃ k, truncateUTF8 s n = s.take k := by
  induction s generalizing n with
  | nil => exact ⟨0, rfl⟩
  | cons c rest ih =>
    simp only [truncateUTF8]
    split_ifs with h
    · obtain ⟨k, hk⟩ := ih (n - c.utf8Size)
      exact ⟨k + 1, by simp [hk]⟩
    · exact ⟨0, rfl⟩

/-- C8 helper: every character takes at least one UTF-8 byte. -/
theorem length_le_utf8Len (s : Str) : s.length ≤ utf8Len s := by
  induction s with
  | nil => simp [utf8Len]
  | cons c rest ih =>
    have := Char.utf8Size_pos c
    simp only [utf8Len, List.map_cons, List.sum_cons, List.length_cons] at *
    omega

/-- C8: every normalizer truncates the description to the fixed 2000-byte
budget — hence also at most 2000 characters — and the cut is UTF-8-safe:
the stored description is a whole-character prefix of the (for Remotive,
markup-stripped) raw description, so no multi-byte character is split. -/
theorem normalized_description_truncated (js : JSearchJob) (rj : RemotiveJob) (aj : AdzunaJob) :
    (utf8Len (convertJSearchJob js).description ≤ 2000 ∧
     (convertJSearchJob js).description.length ≤ 2000 ∧
     ∃ k, (convertJSearchJob js).description = js.jobDescription.take k) ∧
    (utf8Len (convertRemotiveJob rj).description ≤ 2000 ∧
     (convertRemotiveJob rj).description.length ≤ 2000 ∧
     ∃ k, (convertRemotiveJob rj).description = (stripHTML rj.description).take k) ∧
    (utf8Len (convertAdzunaJob aj).description ≤ 2000 ∧
     (convertAdzunaJob aj).description.length ≤ 2000 ∧
     ∃ k, (convertAdzunaJob aj).description = aj.description.take k) := by
  have d1 : (convertJSearchJob js).description = truncateUTF8 js.jobDescription 2000 := rfl
  have d2 : (convertRemotiveJob rj).description =
      truncateUTF8 (stripHTML rj.description) 2000 := rfl
  have d3 : (convertAdzunaJob aj).description = truncateUTF8 aj.description 2000 := rfl
  rw [d1, d2, d3]
  refine ⟨⟨truncateUTF8_utf8Len_le _ _, ?_, truncateUTF8_is_take _ _⟩,
          ⟨truncateUTF8_utf8Len_le _ _, ?_, truncateUTF8_is_take _ _⟩,
          ⟨truncateUTF8_utf8Len_le _ _, ?_, truncateUTF8_is_take _ _⟩⟩ <;>
    exact le_trans (length_le_utf8Len _) (truncateUTF8_utf8Len_le _ _)

/-- C9: a rescore recomputes only match scores: every `user_feed` row keeps
its identity and its `dismissed`/`saved`/`saved_job_id` fields unchanged
(in particular rows of other users are untouched), and the run performs no
provider-adapter call. -/
theorem rescore_changes_only_scores (findUser : Option User) (store : List FeedJob)
    (links : List UserFeed) (userId : Nat) :
    ((RescoreUserFeed findUser store links userId).1).map linkFrame = links.map linkFrame ∧
    (RescoreUserFeed findUser store links userId).2.2.2 = [] := by
  unfold RescoreUserFeed
  cases findUser with
  | none => exact ⟨rfl, rfl⟩
  | some user =>
    simp only
    split_ifs with h
    · exact ⟨rfl, rfl⟩
    · refine ⟨?_, rfl⟩
      unfold BatchUpdateMatchScores
      rw [List.map_map]
      apply List.map_congr_left
      intro l _
      simp only [Function.comp_apply]
      split_ifs with hu
      · cases hfind : (GetUserFeedForRescore store links userId).map
            (fun j => (j.id, calculateMatchScore user j)) |>.find?
            (fun p => p.1 == l.feedJobId) with
        | none => rfl
        | some p => rfl
      · rfl

/-- Helper: the result loop never changes `fetched` or the call trace. -/
theorem foldl_itemStep_frame (env : RefreshEnv) (user : User) :
    ∀ (fs : List FeedJob) (a : SourceAcc),
      (fs.foldl (itemStep env user) a).fetched = a.fetched ∧
      (fs.foldl (itemStep env user) a).calls = a.calls := by
  intro fs
  induction fs with
  | nil => intro a; exact ⟨rfl, rfl⟩
  | cons f rest ih =>
    intro a
    rw [List.foldl_cons]
    have h := ih (itemStep env user a f)
    simpa [itemStep] using h

/-- Helper: each planned JSearch query emits exactly one adapter call. -/
theorem jsQueryStep_calls (env : RefreshEnv) (user : User) (acc : SourceAcc)
    (q : JSearchQuery) :
    (jsQueryStep env user acc q).calls = acc.calls ++ [ProviderCall.jsearch q] := by
  unfold jsQueryStep
  cases h : env.jsearchSearch q with
  | error e => rfl
  | ok results =>
    exact (foldl_itemStep_frame env user (results.map convertJSearchJob) _).2

/-- Helper: the JSearch query loop emits one call per planned query. -/
theorem foldl_jsQueryStep_calls_len (env : RefreshEnv) (user : User) :
    ∀ (qs : List JSearchQuery) (acc : SourceAcc),
      ((qs.foldl (jsQueryStep env user) acc).calls).length =
        acc.calls.length + qs.length := by
  intro qs
  induction qs with
  | nil => intro acc; simp
  | cons q rest ih =>
    intro acc
    rw [List.foldl_cons]
    rw [ih (jsQueryStep env user acc q), jsQueryStep_calls]
    simp
    omega

/-- Helper: a JSearch query whose adapter call fails only logs the call. -/
theorem jsQueryStep_fail (env : RefreshEnv) (user : User) (acc : SourceAcc)
    (q : JSearchQuery) (h : env.jsearchSearch q = Except.error ()) :
    jsQueryStep env user acc q =
      ⟨acc.fetched, acc.newCount, acc.calls ++ [ProviderCall.jsearch q],
       acc.store, acc.links⟩ := by
  unfold jsQueryStep
  rw [h]

/-- Helper: if every JSearch query fails, the whole JSearch loop only logs
calls — no count moves and no state changes. -/
theorem foldl_jsQueryStep_allfail (env : RefreshEnv) (user : User)
    (h : ∀ q, env.jsearchSearch q = Except.error ()) :
    ∀ (qs : List JSearchQuery) (acc : SourceAcc),
      qs.foldl (jsQueryStep env user) acc =
        ⟨acc.fetched, acc.newCount, acc.calls ++ qs.map ProviderCall.jsearch,
         acc.store, acc.links⟩ := by
  intro qs
  induction qs with
  | nil => intro acc; simp
  | cons q rest ih =>
    intro acc
    rw [List.foldl_cons, jsQueryStep_fail env user acc q (h q), ih]
    simp

/-- Helper: the JSearch planner always returns at least one query (a
profile with no signal gets the hardcoded fallback). -/
theorem jsFallbackOrCap_ne_nil (queries : List JSearchQuery) (location : Str)
    (remoteOnly : Bool) : jsFallbackOrCap queries location remoteOnly ≠ [] := by
  unfold jsFallbackOrCap
  split_ifs with h1 h2
  · simp
  · apply List.ne_nil_of_length_pos
    rw [List.length_take]
    omega
  · exact h1

theorem BuildQueriesFromProfile_ne_nil (u : User) :
    BuildQueriesFromProfile u ≠ [] :=
  jsFallbackOrCap_ne_nil _ _ _

/-- Helper: the run of `RefreshUserFeed` that hits the throttle. -/
theorem RefreshUserFeed_throttled (env : RefreshEnv) (store : List FeedJob)
    (links : List UserFeed) (force : Bool) (user : User)
    (hu : env.findUser = some user)
    (hthr : (!force && withinThrottle env) = true) :
    RefreshUserFeed env store links force = ⟨0, 0, false, [], store, links⟩ := by
  simp only [RefreshUserFeed, hu, hthr, if_true]

/-- Helper: the run of `RefreshUserFeed` that proceeds to the fan-out. -/
theorem RefreshUserFeed_proceed (env : RefreshEnv) (store : List FeedJob)
    (links : List UserFeed) (force : Bool) (user : User)
    (hu : env.findUser = some user)
    (hthr : (!force && withinThrottle env) = false) :
    RefreshUserFeed env store links force =
      (let s1 := if env.jsearchConfigured then refreshFromJSearch env user store links
                 else ⟨0, 0, [], store, links⟩
       let s2 := if env.remotiveConfigured then refreshFromRemotive env user s1.store s1.links
                 else ⟨0, 0, [], s1.store, s1.links⟩
       let s3 := if env.adzunaConfigured then refreshFromAdzuna env user s2.store s2.links
                 else ⟨0, 0, [], s2.store, s2.links⟩
       ⟨s1.fetched + s2.fetched + s3.fetched,
        s1.newCount + s2.newCount + s3.newCount,
        false,
        s1.calls ++ s2.calls ++ s3.calls,
        s3.store, s3.links⟩) := by
  simp only [RefreshUserFeed, hu, hthr, Bool.false_eq_true, if_false]

/-- C3: with the profile found and the JSearch client wired (it always is —
`NewJSearchClient` never returns nil), a refresh returns (0, 0, nil) with
no provider call made if and only if `force` is false and the most recent
refresh-log entry lies inside the fixed 2-hour throttle window; and with
`force = true` the throttle is bypassed regardless of the last-refresh
time — provider calls are always made. -/
theorem refresh_throttle_iff (env : RefreshEnv) (store : List FeedJob)
    (links : List UserFeed) (force : Bool) (user : User)
    (hu : env.findUser = some user) (hj : env.jsearchConfigured = true) :
    (((RefreshUserFeed env store links force).fetched = 0 ∧
      (RefreshUserFeed env store links force).newCount = 0 ∧
      (RefreshUserFeed env store links force).err = false ∧
      (RefreshUserFeed env store links force).calls = []) ↔
     (force = false ∧ withinThrottle env = true)) ∧
    (force = true → (RefreshUserFeed env store links force).calls ≠ []) := by
  by_cases hthr : (!force && withinThrottle env) = true
  · have hrun := RefreshUserFeed_throttled env store links force user hu hthr
    rw [Bool.and_eq_true, Bool.not_eq_true'] at hthr
    constructor
    · rw [hrun]
      constructor
      · intro _; exact hthr
      · intro _; exact ⟨rfl, rfl, rfl, rfl⟩
    · intro hf
      rw [hf] at hthr
      exact absurd hthr.1 (by simp)
  · have hthr' : (!force && withinThrottle env) = false := by
      revert hthr; cases (!force && withinThrottle env) <;> simp
    have hrun := RefreshUserFeed_proceed env store links force user hu hthr'
    have hcalls : (RefreshUserFeed env store links force).calls ≠ [] := by
      rw [hrun]
      simp only [hj, if_true]
      intro hc
      have hlen : ((refreshFromJSearch env user store links).calls).length = 0 := by
        have := congrArg List.length hc
        simp only [List.length_append, List.length_nil] at this
        omega
      rw [show (refreshFromJSearch env user store links).calls =
            ((BuildQueriesFromProfile user).foldl (jsQueryStep env user)
              ⟨0, 0, [], store, links⟩).calls from rfl,
          foldl_jsQueryStep_calls_len] at hlen
      simp only [List.length_nil] at hlen
      exact BuildQueriesFromProfile_ne_nil user (List.length_eq_zero.mp (by omega))
    constructor
    · constructor
      · intro h4
        exact absurd h4.2.2.2 hcalls
      · rintro ⟨hf, hw⟩
        rw [hf, hw] at hthr
        simp at hthr
    · intro _
      exact hcalls

/-- Helper: disabling JSearch leaves the Remotive run untouched. -/
theorem refreshFromRemotive_disable (env : RefreshEnv) (user : User)
    (s : List FeedJob) (l : List UserFeed) :
    refreshFromRemotive (disableJSearch env) user s l =
      refreshFromRemotive env user s l := rfl

/-- Helper: disabling JSearch leaves the Adzuna run untouched. -/
theorem refreshFromAdzuna_disable (env : RefreshEnv) (user : User)
    (s : List FeedJob) (l : List UserFeed) :
    refreshFromAdzuna (disableJSearch env) user s l =
      refreshFromAdzuna env user s l := rfl

/-- C2: when the profile is found, a refresh returns a nil error no matter
how the providers behave; and when every JSearch query fails, the refresh
(forced here, so the fan-out actually runs) produces exactly the fetched
and new counts it would produce with the failing provider absent — the
failed provider's queries are skipped and contribute nothing. -/
theorem refresh_tolerates_outage (env : RefreshEnv) (store : List FeedJob)
    (links : List UserFeed) (user : User)
    (hu : env.findUser = some user)
    (hfail : ∀ q, env.jsearchSearch q = Except.error ()) :
    (∀ force, (RefreshUserFeed env store links force).err = false) ∧
    (RefreshUserFeed env store links true).fetched =
      (RefreshUserFeed (disableJSearch env) store links true).fetched ∧
    (RefreshUserFeed env store links true).newCount =
      (RefreshUserFeed (disableJSearch env) store links true).newCount := by
  have hu' : (disableJSearch env).findUser = some user := hu
  constructor
  · intro force
    by_cases hthr : (!force && withinThrottle env) = true
    · rw [RefreshUserFeed_throttled env store links force user hu hthr]
    · have hthr' : (!force && withinThrottle env) = false := by
        revert hthr; cases (!force && withinThrottle env) <;> simp
      rw [RefreshUserFeed_proceed env store links force user hu hthr']
  · have hthr : (!true && withinThrottle env) = false := by simp
    have hthr' : (!true && withinThrottle (disableJSearch env)) = false := hthr
    rw [RefreshUserFeed_proceed env store links true user hu hthr,
        RefreshUserFeed_proceed (disableJSearch env) store links true user hu' hthr']
    have hJs : refreshFromJSearch env user store links =
        ⟨0, 0, (BuildQueriesFromProfile user).map ProviderCall.jsearch, store, links⟩ := by
      show (BuildQueriesFromProfile user).foldl (jsQueryStep env user)
          ⟨0, 0, [], store, links⟩ = _
      rw [foldl_jsQueryStep_allfail env user hfail]
      simp
    simp only [disableJSearch, Bool.false_eq_true, if_false]
    cases hjc : env.jsearchConfigured with
    | false => simp only [Bool.false_eq_true, if_false]; exact ⟨rfl, rfl⟩
    | true =>
      simp only [if_true, hJs]
      exact ⟨rfl, rfl⟩

/-- C6 counterexample: a profile with no signal whose work style is neither
onsite (so Remotive is not skipped for exclusivity) nor anything else
still gets an empty Remotive plan — the Remotive planner has no hardcoded
"software engineer" fallback, refuting the claim that every provider's
planner falls back to it. -/
theorem remotive_no_fallback :
    equalFold noSignalUser.workStyle ("onsite".toList) = false ∧
    BuildRemotiveQueries noSignalUser = [] := by decide

/-- C6 amended: for a profile with no target roles, no skills and no
experience, the JSearch planner returns exactly the hardcoded
"software engineer" fallback query and the Adzuna planner returns its two
fallback keyword queries ("software engineer" and "developer", with
" remote" appended for a remote work style) — both plans non-empty — while
the Remotive planner returns the empty plan and that provider is skipped
even when it is not excluded by an onsite-only work style. -/
theorem planner_fallback_queries (u : User)
    (h1 : u.targetRoles = []) (h2 : u.skills = []) (h3 : u.experience = []) :
    BuildQueriesFromProfile u = jsearchFallbackPlan u ∧
    BuildAdzunaQueries u = adzunaFallbackPlan u ∧
    BuildRemotiveQueries u = [] := by
  obtain ⟨uid, loc, ws, smin, smax, sk, tr, ex⟩ := u
  simp only at h1 h2 h3
  subst h1
  subst h2
  subst h3
  refine ⟨rfl, rfl, ?_⟩
  cases hc : equalFold ws ("onsite".toList)
  · simp only [BuildRemotiveQueries, hc, Bool.false_eq_true, if_false]
    rfl
  · simp only [BuildRemotiveQueries, hc, if_true]

/-- C6 witness: the amended planner statement at the concrete no-signal
profile. -/
theorem planner_fallback_queries_witness :
    BuildQueriesFromProfile noSignalUser = jsearchFallbackPlan noSignalUser ∧
    BuildAdzunaQueries noSignalUser = adzunaFallbackPlan noSignalUser ∧
    BuildRemotiveQueries noSignalUser = [] :=
  planner_fallback_queries noSignalUser rfl rfl rfl

/-- C2 witness: in the concrete outage environment (JSearch fails every
query, Remotive serves one listing) the forced refresh returns a nil error
and the same counts as the environment with JSearch absent. -/
theorem refresh_tolerates_outage_witness :
    (RefreshUserFeed outageEnv [] [] true).err = false ∧
    (RefreshUserFeed outageEnv [] [] true).fetched =
      (RefreshUserFeed (disableJSearch outageEnv) [] [] true).fetched ∧
    (RefreshUserFeed outageEnv [] [] true).newCount =
      (RefreshUserFeed (disableJSearch outageEnv) [] [] true).newCount := by
  have h := refresh_tolerates_outage outageEnv [] [] sampleUser rfl (fun _ => rfl)
  exact ⟨h.1 true, h.2.1, h.2.2⟩

/-- C3 witness: in the concrete environment whose last refresh lies 100
seconds back, an unforced refresh is the throttled no-op: zero counts, nil
error, no provider call. -/
theorem refresh_throttle_iff_witness :
    (RefreshUserFeed throttledEnv [] [] false).fetched = 0 ∧
    (RefreshUserFeed throttledEnv [] [] false).newCount = 0 ∧
    (RefreshUserFeed throttledEnv [] [] false).err = false ∧
    (RefreshUserFeed throttledEnv [] [] false).calls = [] := by
  have h := refresh_throttle_iff throttledEnv [] [] false sampleUser rfl rfl
  exact h.1.mpr ⟨rfl, by decide⟩

end HireIQ
